import Mathlib

/-!
Verification of `openlego/core/xml_component.py` (class `XMLComponent`).

The Python source is shallowly embedded below.  Registries (Python dicts in
insertion order) are modelled as association lists with unique keys; Python
floats appearing in the claims are modelled as rationals (all the logic under
verification only copies, averages and compares them, never rounds); a raised
exception is modelled by the `raised` constructor of `PyResult`.
-/

namespace OpenLego

/-- A template value held in the registries: a numeric scalar, a numeric
array (`np.ndarray`), or a non-numeric (discrete) value. -/
inductive Value where
  | scalar : ℚ → Value
  | arr : List ℚ → Value
  | str : String → Value
deriving DecidableEq

/-- Modelled from the spec: `is_float` lives in `openlego.utils.general_utils`,
which is not part of the sources at hand; per the spec a parameter's kind is
determined "by checking whether the value is numeric (scalar/array) vs. not". -/
def is_float : Value → Bool
  | .scalar _ => true
  | .arr _ => true
  | .str _ => false

/-- `np.ndarray.mean()` on an exact model: sum divided by length. -/
def mean (xs : List ℚ) : ℚ := xs.sum / xs.length

/-- The reference-value computation that `output_rename_map` and `setup`
both perform on a float output value `value`:
`ref = value.mean()` for an array else `ref = value`; then
`if ref == 0.: ref = 1.`  (The `str` case never arises: the computation is
only reached when `is_float value` holds.) -/
def ref_value (v : Value) : ℚ :=
  let ref : ℚ :=
    match v with
    | .arr xs => mean xs
    | .scalar x => x
    | .str _ => 0
  if ref = 0 then 1 else ref

/-- Result of a Python call: a normal value or a raised exception
(carrying the exception message). -/
inductive PyResult (α : Type) where
  | ok : α → PyResult α
  | raised : String → PyResult α
deriving DecidableEq

/-- `r.isOk` is true when no exception was raised. -/
def PyResult.isOk : PyResult α → Bool
  | .ok _ => true
  | .raised _ => false

/-- The set `input_names` built by the cached property `_input_names`:
names of the inputs whose template value is numeric. -/
def input_names (ins : List (String × Value)) : List String :=
  (ins.filter (fun p => is_float p.2)).map Prod.fst

/-- The set `discrete_input_names` built by the cached property
`_input_names`: names of the inputs whose template value is non-numeric. -/
def discrete_input_names (ins : List (String × Value)) : List String :=
  (ins.filter (fun p => !is_float p.2)).map Prod.fst

/-- Loop body of the cached property `output_rename_map`: iterate over
`outputs_from_xml.items()`; for each float output compute the reference
value, raise a `RuntimeError` when the name is a discrete input, and add the
rename entry `(name + '___out', value, ref)` when the name is a continuous
input. -/
def output_rename_map_aux (inNames dNames : List String) :
    List (String × Value) → PyResult (List (String × String × Value × ℚ))
  | [] => .ok []
  | (name, value) :: rest =>
    if is_float value then
      if name ∈ dNames then
        .raised ("Output not same type (cont) as input (discrete): " ++ name)
      else if name ∈ inNames then
        match output_rename_map_aux inNames dNames rest with
        | .ok m => .ok ((name, (name ++ "___out", value, ref_value value)) :: m)
        | .raised e => .raised e
      else
        output_rename_map_aux inNames dNames rest
    else
      output_rename_map_aux inNames dNames rest

/-- Loop body of the cached property `discrete_output_rename_map`: for each
non-float output, raise a `RuntimeError` when the name is a continuous input,
and add the rename entry `(name + '___out', value)` when the name is a
discrete input. -/
def discrete_output_rename_map_aux (inNames dNames : List String) :
    List (String × Value) → PyResult (List (String × String × Value))
  | [] => .ok []
  | (name, value) :: rest =>
    if is_float value then
      discrete_output_rename_map_aux inNames dNames rest
    else
      if name ∈ inNames then
        .raised ("Output not same type (discrete) as input (cont): " ++ name)
      else if name ∈ dNames then
        match discrete_output_rename_map_aux inNames dNames rest with
        | .ok m => .ok ((name, (name ++ "___out", value)) :: m)
        | .raised e => .raised e
      else
        discrete_output_rename_map_aux inNames dNames rest

/-- The value computed by the property `output_rename_map` on given
registries (ignoring the caching layer, which is modelled separately). -/
def computeOutputRenameMap (ins outs : List (String × Value)) :
    PyResult (List (String × String × Value × ℚ)) :=
  output_rename_map_aux (input_names ins) (discrete_input_names ins) outs

/-- The value computed by the property `discrete_output_rename_map` on given
registries (ignoring the caching layer, which is modelled separately). -/
def computeDiscreteOutputRenameMap (ins outs : List (String × Value)) :
    PyResult (List (String × String × Value)) :=
  discrete_output_rename_map_aux (input_names ins) (discrete_input_names ins) outs

/-- The component state: the three registries set by
`set_inputs_from_xml` / `set_outputs_from_xml` / `declare_partials_from_xml`,
the constructor attributes, and the memoization slots that the
`cached_property` decorator keeps in the instance `__dict__` for
`_input_names`, `output_rename_map` and `discrete_output_rename_map`
(`none` = not yet computed).  `partials_from_xml` maps an output xpath to the
xpaths it is differentiated with respect to (the `Partials` helper class is
not among the sources; only the dict shape its `get_partials()` returns is
used here).  `discipline` is `none` when the instance has no
`discipline` attribute — `XMLComponent` itself never defines one. -/
structure XMLComponent where
  inputs_from_xml : List (String × Value)
  outputs_from_xml : List (String × Value)
  partials_from_xml : List (String × List String)
  data_folder : String
  keep_files : Bool
  base_file : Option String
  name : String
  discipline : Option Bool
  cache_input_names : Option (List String × List String)
  cache_output_rename_map : Option (List (String × String × Value × ℚ))
  cache_discrete_output_rename_map : Option (List (String × String × Value))
deriving DecidableEq

/-- `set_inputs_from_xml`: clears and repopulates `self.inputs_from_xml`
from the parsed template (the parsed name/value pairs are the argument
here).  It touches nothing else — in particular none of the
`cached_property` slots is removed from the instance `__dict__`. -/
def set_inputs_from_xml (c : XMLComponent) (entries : List (String × Value)) :
    XMLComponent :=
  ⟨entries, c.outputs_from_xml, c.partials_from_xml, c.data_folder,
   c.keep_files, c.base_file, c.name, c.discipline, c.cache_input_names,
   c.cache_output_rename_map, c.cache_discrete_output_rename_map⟩

/-- `set_outputs_from_xml`: clears and repopulates `self.outputs_from_xml`;
like `set_inputs_from_xml` it leaves every memoization slot in place. -/
def set_outputs_from_xml (c : XMLComponent) (entries : List (String × Value)) :
    XMLComponent :=
  ⟨c.inputs_from_xml, entries, c.partials_from_xml, c.data_folder,
   c.keep_files, c.base_file, c.name, c.discipline, c.cache_input_names,
   c.cache_output_rename_map, c.cache_discrete_output_rename_map⟩

/-- Reading the cached property `_input_names`: return the memoized pair if
present, else compute it from `inputs_from_xml` and store it. -/
def get_input_names (c : XMLComponent) :
    (List String × List String) × XMLComponent :=
  match c.cache_input_names with
  | some v => (v, c)
  | none =>
    let v := (input_names c.inputs_from_xml, discrete_input_names c.inputs_from_xml)
    (v, ⟨c.inputs_from_xml, c.outputs_from_xml, c.partials_from_xml,
         c.data_folder, c.keep_files, c.base_file, c.name, c.discipline,
         some v, c.cache_output_rename_map,
         c.cache_discrete_output_rename_map⟩)

/-- Reading the cached property `output_rename_map`: return the memoized map
if present; otherwise read `_input_names` (itself cached), run the loop, and
memoize the result — a raised `RuntimeError` propagates and nothing is
stored for the raising property. -/
def get_output_rename_map (c : XMLComponent) :
    PyResult (List (String × String × Value × ℚ)) × XMLComponent :=
  match c.cache_output_rename_map with
  | some m => (.ok m, c)
  | none =>
    let p := get_input_names c
    let c' := p.2
    match output_rename_map_aux p.1.1 p.1.2 c'.outputs_from_xml with
    | .ok m =>
      (.ok m, ⟨c'.inputs_from_xml, c'.outputs_from_xml, c'.partials_from_xml,
               c'.data_folder, c'.keep_files, c'.base_file, c'.name,
               c'.discipline, c'.cache_input_names, some m,
               c'.cache_discrete_output_rename_map⟩)
    | .raised e => (.raised e, c')

/-- Reading the cached property `discrete_output_rename_map` (same
memoization discipline as `output_rename_map`). -/
def get_discrete_output_rename_map (c : XMLComponent) :
    PyResult (List (String × String × Value)) × XMLComponent :=
  match c.cache_discrete_output_rename_map with
  | some m => (.ok m, c)
  | none =>
    let p := get_input_names c
    let c' := p.2
    match discrete_output_rename_map_aux p.1.1 p.1.2 c'.outputs_from_xml with
    | .ok m =>
      (.ok m, ⟨c'.inputs_from_xml, c'.outputs_from_xml, c'.partials_from_xml,
               c'.data_folder, c'.keep_files, c'.base_file, c'.name,
               c'.discipline, c'.cache_input_names,
               c'.cache_output_rename_map, some m⟩)
    | .raised e => (.raised e, c')

/-- The name passed to `add_discrete_output` in `setup`.  The source assigns
`name = discrete_output_rename_map[name]` — the entire `(renamed, value)`
tuple, not its first component — so the declared name is either a plain
string or that tuple. -/
inductive DiscName where
  | plain : String → DiscName
  | tuple : String → Value → DiscName
deriving DecidableEq

/-- The declarations `setup` makes against the host framework, in call
order per call stream: `add_input`, `add_discrete_input`,
`add_output(name, value, ref=ref)`, `add_discrete_output`,
`declare_partials(of, wrts)`, and whether the dense
`declare_partials('*', '*', method='fd', step_calc='rel_avg')` fallback
was issued. -/
structure SetupResult where
  cont_inputs : List (String × Value)
  disc_inputs : List (String × Value)
  cont_outputs : List (String × Value × ℚ)
  disc_outputs : List (DiscName × Value)
  decl_partials : List (String × List String)
  fd_fallback : Bool
deriving DecidableEq

/-- The output loop of `setup` (source lines 259–281): for a float output
recompute the reference value exactly as `output_rename_map` does, rename
through `output_rename_map` (taking component 0 of the entry), and declare
`add_output(name, value, ref=ref)`; for a non-float output rename through
`discrete_output_rename_map` (the source takes the whole entry) and declare
`add_discrete_output(name, value)`. -/
def setup_outputs_loop (orm : List (String × String × Value × ℚ))
    (dorm : List (String × String × Value)) :
    List (String × Value) → List (String × Value × ℚ) × List (DiscName × Value)
  | [] => ([], [])
  | (name, value) :: rest =>
    let r := setup_outputs_loop orm dorm rest
    if is_float value then
      let ref := ref_value value
      let name' :=
        match List.lookup name orm with
        | some t => t.1
        | none => name
      ((name', value, ref) :: r.1, r.2)
    else
      let dn : DiscName :=
        match List.lookup name dorm with
        | some t => .tuple t.1 t.2
        | none => .plain name
      (r.1, (dn, value) :: r.2)

/-- `setup`: declare every input (continuous or discrete), read the two
rename-map properties (a type-mismatch `RuntimeError` raised there
propagates), declare every output through `setup_outputs_loop`, and declare
partials only when at least one continuous input and one continuous output
exist — either the pairs listed in `partials_from_xml` (with the output
translated by `xpath_to_param` and the rename map; the source's
`if of is not None` guard is vacuous here because the modelled keys are
always present) or the dense finite-difference fallback.
`xp` stands for the collaborator `xpath_to_param` (a pure string transform
defined outside these sources). -/
def setup (xp : String → String) (c : XMLComponent) :
    PyResult SetupResult × XMLComponent :=
  let cont_inputs := c.inputs_from_xml.filter (fun p => is_float p.2)
  let disc_inputs := c.inputs_from_xml.filter (fun p => !is_float p.2)
  let has_cont_input := c.inputs_from_xml.any (fun p => is_float p.2)
  match get_output_rename_map c with
  | (.raised e, c1) => (.raised e, c1)
  | (.ok orm, c1) =>
    match get_discrete_output_rename_map c1 with
    | (.raised e, c2) => (.raised e, c2)
    | (.ok dorm, c2) =>
      let outs := setup_outputs_loop orm dorm c2.outputs_from_xml
      let has_cont_output := c2.outputs_from_xml.any (fun p => is_float p.2)
      let decls : List (String × List String) × Bool :=
        if has_cont_input && has_cont_output then
          if !c2.partials_from_xml.isEmpty then
            (c2.partials_from_xml.map (fun pw =>
              let out0 := xp pw.1
              let out1 :=
                match List.lookup out0 orm with
                | some t => t.1
                | none => out0
              (out1, pw.2.map xp)), false)
          else ([], true)
        else ([], false)
      (.ok ⟨cont_inputs, disc_inputs, outs.1, outs.2, decls.1, decls.2⟩, c2)

/-- A wall-clock instant as `datetime.now()` exposes it (the fields
`strftime` can render). -/
structure DateTime where
  year : Nat
  month : Nat
  day : Nat
  hour : Nat
  minute : Nat
  second : Nat
  microsecond : Nat
deriving DecidableEq

/-- Zero-pad the decimal rendering of `n` to width `w`, as the `strftime`
directives do. -/
def zpad (w : Nat) (n : Nat) : String :=
  let s := toString n
  String.mk (List.replicate (w - s.length) '0') ++ s

/-- `datetime.now().strftime('%Y%m%d%H%M%f')` — the format string used at
source line 338.  Note that it has no `%S` directive: the rendered salt is
year, month, day, hour, minute and microsecond; the second field of the
instant is never rendered. -/
def strftime_YmdHMf (t : DateTime) : String :=
  zpad 4 t.year ++ zpad 2 t.month ++ zpad 2 t.day ++ zpad 2 t.hour ++
    zpad 2 t.minute ++ zpad 6 t.microsecond

/-- `os.path.join(d, f)` for the shapes used here: `d` empty yields `f`,
otherwise the separator is inserted (modelling the Python stdlib call for a
folder with no trailing separator). -/
def os_path_join (d f : String) : String :=
  if d = "" then f else d ++ "/" ++ f

/-- `generate_file_names` at the instant `now`: salt the three file names
with `strftime('%Y%m%d%H%M%f')` of the current time. -/
def generate_file_names (c : XMLComponent) (now : DateTime) :
    String × String × String :=
  let salt := strftime_YmdHMf now
  (os_path_join c.data_folder (c.name ++ "_in_" ++ salt ++ ".xml"),
   os_path_join c.data_folder (c.name ++ "_out_" ++ salt ++ ".xml"),
   os_path_join c.data_folder (c.name ++ "_partials_" ++ salt ++ ".xml"))

/-- `if name in output_rename_map: name = output_rename_map[name][0]` —
the continuous rename applied in `setup`, `read_outputs_file`,
`read_partials_file` and `compute`. -/
def orm_renamed (orm : List (String × String × Value × ℚ)) (n : String) :
    String :=
  match List.lookup n orm with
  | some t => t.1
  | none => n

/-- The if/elif rename applied when routing an output value: first the
continuous map, else the discrete map, else the name itself. -/
def rename_out (orm : List (String × String × Value × ℚ))
    (dorm : List (String × String × Value)) (n : String) : String :=
  match List.lookup n orm with
  | some t => t.1
  | none =>
    match List.lookup n dorm with
    | some t => t.1
    | none => n

/-- The document built by `write_input_file` (and, identically, the
`input_dict` built by the fast path of `compute`): for each registered
input param present in the continuous or the discrete input vector, one
`(xpath, value)` entry keyed by `param_to_xpath(param)` (`p2x` stands for
that collaborator transform). -/
def build_input_doc (p2x : String → String) (ins : List (String × Value))
    (inputs discrete_inputs : List (String × Value)) : List (String × Value) :=
  ins.foldr (fun p acc =>
    match List.lookup p.1 inputs with
    | some v => (p2x p.1, v) :: acc
    | none =>
      match List.lookup p.1 discrete_inputs with
      | some v => (p2x p.1, v) :: acc
      | none => acc) []

/-- The extraction loop shared by `read_outputs_file` (source lines
393–405) and the fast path of `compute` (lines 470–480): translate each
xpath of the result document, keep only names registered as outputs, apply
the renames, and assign into the continuous slot if declared there, else
into the discrete slot when a discrete container was passed. -/
def read_outputs_loop (x2p : String → String)
    (orm : List (String × String × Value × ℚ))
    (dorm : List (String × String × Value)) (out_keys : List String)
    (outputs : List String) (discrete_outputs : Option (List String)) :
    List (String × Value) → List (String × Value)
  | [] => []
  | (xpath, value) :: rest =>
    let r := read_outputs_loop x2p orm dorm out_keys outputs discrete_outputs rest
    let name := x2p xpath
    if name ∈ out_keys then
      let name' := rename_out orm dorm name
      if name' ∈ outputs then (name', value) :: r
      else
        match discrete_outputs with
        | some dl => if name' ∈ dl then (name', value) :: r else r
        | none => r
    else r

/-- `read_outputs_file`: read the two rename-map properties (a raise there
propagates) and run the extraction loop over the parsed document. -/
def read_outputs_file (x2p : String → String) (c : XMLComponent)
    (doc : List (String × Value)) (outputs : List String)
    (discrete_outputs : Option (List String)) :
    PyResult (List (String × Value)) × XMLComponent :=
  match get_output_rename_map c with
  | (.raised e, c1) => (.raised e, c1)
  | (.ok orm, c1) =>
    match get_discrete_output_rename_map c1 with
    | (.raised e, c2) => (.raised e, c2)
    | (.ok dorm, c2) =>
      (.ok (read_outputs_loop x2p orm dorm (c2.outputs_from_xml.map Prod.fst)
              outputs discrete_outputs doc), c2)

/-- The inner loop of `read_partials_file` for one `of` entry of the parsed
partials document.  `xp` is the collaborator `xpath_to_param`; `declared`
models `(of, wrt) in partials`; `trySet` models the host-framework write
`partials[of, wrt] = val`, which may raise — the source wraps exactly that
single write in `try/except Exception` and prints the exception's message,
so a failure appends to the log and the loop continues with the remaining
pairs.  Note that the source reassigns the loop variable `of` inside the
inner loop, so later pairs of the same entry start from the already
translated-and-renamed name; the first recursion argument threads that. -/
def read_partials_inner {σ : Type} (xp : String → String)
    (orm : List (String × String × Value × ℚ))
    (declared : List (String × String))
    (trySet : σ → String → String → ℚ → PyResult σ) :
    String → List (String × ℚ) → σ → List String → σ × List String
  | _, [], st, log => (st, log)
  | ofv, (wrt, val) :: rest, st, log =>
    let of2 := orm_renamed orm (xp ofv)
    let wrt1 := xp wrt
    if (of2, wrt1) ∈ declared then
      match trySet st of2 wrt1 val with
      | .ok st' => read_partials_inner xp orm declared trySet of2 rest st' log
      | .raised msg =>
        read_partials_inner xp orm declared trySet of2 rest st (log ++ [msg])
    else
      read_partials_inner xp orm declared trySet of2 rest st log

/-- `read_partials_file`: read the `output_rename_map` property (a raise
there propagates) and fold the inner loop over every `(of, wrts)` entry of
the parsed partials document, threading the partials store and the log of
printed messages. -/
def read_partials_file {σ : Type} (xp : String → String)
    (trySet : σ → String → String → ℚ → PyResult σ) (c : XMLComponent)
    (declared : List (String × String))
    (entries : List (String × List (String × ℚ))) (st : σ) :
    PyResult (σ × List String) × XMLComponent :=
  match get_output_rename_map c with
  | (.raised e, c1) => (.raised e, c1)
  | (.ok orm, c1) =>
    (.ok (entries.foldl
      (fun acc pw => read_partials_inner xp orm declared trySet pw.1 pw.2 acc.1 acc.2)
      (st, [])), c1)

/-- The condition of `xml_params_as_indep_vars`'s length validation,
evaluated with Python's short-circuit semantics:
`len(params) != len(values) or (aliases is None and len(params) != len(aliases))`.
When the first disjunct is false and `aliases` is `None`, the second
conjunct evaluates `len(None)`, which raises a `TypeError`; when `aliases`
is a list, `aliases is None` is false and the conjunction short-circuits to
`False` without ever comparing the lengths. -/
def len_condition (params : List String) (values : List ℚ)
    (aliases : Option (List String)) : PyResult Bool :=
  if params.length ≠ values.length then .ok true
  else
    match aliases with
    | none => .raised "TypeError: object of type 'NoneType' has no len()"
    | some _ => .ok false

/-- The membership loop of `xml_params_as_indep_vars`: raise a `ValueError`
at the first param that is not a registered XML input. -/
def params_check (ins_keys : List String) : List String → PyResult Unit
  | [] => .ok ()
  | p :: rest =>
    if p ∈ ins_keys then params_check ins_keys rest
    else
      .raised ("ValueError: at least one param given is not a param of this XMLComponent ("
        ++ p ++ ")")

/-- The declaration loop of `xml_params_as_indep_vars`: for each param, the
alias is `'INDEP_' + param_to_xpath(param).split('/')[-1].split('[')[0]`
when `aliases` is `None` (`suffix_of` stands for the collaborator-derived
suffix) or `aliases[index]` otherwise (raising `IndexError` when the list
is too short); each iteration adds an `IndepVarComp` and a connection,
modelled as the `(alias, value, param)` action list. -/
def indep_vars_loop (suffix_of : String → String)
    (aliases : Option (List String)) (values : List ℚ) :
    Nat → List String → PyResult (List (String × ℚ × String))
  | _, [] => .ok []
  | i, p :: rest =>
    let aliasR : PyResult String :=
      match aliases with
      | none => .ok ("INDEP_" ++ suffix_of p)
      | some l =>
        match l.get? i with
        | some a => .ok a
        | none => .raised "IndexError: list index out of range"
    match aliasR with
    | .raised e => .raised e
    | .ok a =>
      match values.get? i with
      | none => .raised "IndexError: list index out of range"
      | some v =>
        match indep_vars_loop suffix_of aliases values (i + 1) rest with
        | .ok acts => .ok ((a, v, p) :: acts)
        | .raised e => .raised e

/-- `xml_params_as_indep_vars`: the length validation, then the membership
check against `inputs_from_xml`, then the declaration loop. -/
def xml_params_as_indep_vars (suffix_of : String → String) (c : XMLComponent)
    (params : List String) (values : List ℚ)
    (aliases : Option (List String)) : PyResult (List (String × ℚ × String)) :=
  match len_condition params values aliases with
  | .raised e => .raised e
  | .ok true =>
    .raised "ValueError: number of params, values and optionally aliases needs to be the same"
  | .ok false =>
    match params_check (c.inputs_from_xml.map Prod.fst) params with
    | .raised e => .raised e
    | .ok _ => indep_vars_loop suffix_of aliases values 0 params

/-- The observable side effects of one `compute` call, in order:
file/buffer writes, base-file merges, external-tool invocations, and the
output read-back.  Buffers (`io.BytesIO`) are designated `"<memory>"`. -/
inductive Effect where
  | wrote_input : String → Effect
  | merged_base : String → Effect
  | executed_fast : Effect
  | executed : String → String → Effect
  | read_back : String → Effect
deriving DecidableEq

/-- `compute`: its first statement evaluates
`hasattr(self.discipline, 'execute_fast')`, dereferencing the `discipline`
attribute — which `XMLComponent` itself never defines — so an instance
without that attribute raises `AttributeError` before anything else
happens.  Otherwise one of the three paths runs: the in-memory fast path
(`discipline = some true`), the `BytesIO` path when files are not kept, or
the on-disk path salted by `generate_file_names`.  `execute_fast_impl`
models the external tool's in-memory operation and `execute_doc` the parsed
content of the output document the abstract `execute` wrote; both are
collaborator behaviour outside these sources. -/
def compute (p2x x2p : String → String)
    (execute_fast_impl : List (String × Value) → List (String × Value))
    (execute_doc : List (String × Value)) (c : XMLComponent)
    (inputs discrete_inputs : List (String × Value)) (outputs : List String)
    (discrete_outputs : Option (List String)) (now : DateTime) :
    List Effect × PyResult (List (String × Value)) :=
  match c.discipline with
  | none =>
    ([], .raised "AttributeError: 'XMLComponent' object has no attribute 'discipline'")
  | some has_fast =>
    if has_fast then
      let input_dict := build_input_doc p2x c.inputs_from_xml inputs discrete_inputs
      let output_dict := execute_fast_impl input_dict
      match get_output_rename_map c with
      | (.raised e, _) => ([.executed_fast], .raised e)
      | (.ok orm, c1) =>
        match get_discrete_output_rename_map c1 with
        | (.raised e, _) => ([.executed_fast], .raised e)
        | (.ok dorm, c2) =>
          ([.executed_fast],
           .ok (read_outputs_loop x2p orm dorm (c2.outputs_from_xml.map Prod.fst)
                  outputs discrete_outputs output_dict))
    else if !c.keep_files then
      let pre : List Effect :=
        if !c.inputs_from_xml.isEmpty then
          [.wrote_input "<memory>"] ++
            (match c.base_file with
             | some b => [.merged_base b]
             | none => [])
        else []
      let ex : Effect :=
        match c.base_file with
        | some b => .executed b "<memory>"
        | none => .executed "<memory>" "<memory>"
      let post : List Effect :=
        match c.base_file with
        | some b => [.merged_base b]
        | none => []
      if !c.outputs_from_xml.isEmpty then
        match read_outputs_file x2p c execute_doc outputs discrete_outputs with
        | (.raised e, _) =>
          (pre ++ [ex] ++ post ++ [.read_back "<memory>"], .raised e)
        | (.ok asg, _) =>
          (pre ++ [ex] ++ post ++ [.read_back "<memory>"], .ok asg)
      else (pre ++ [ex] ++ post, .ok [])
    else
      let fns := generate_file_names c now
      let pre : List Effect :=
        if !c.inputs_from_xml.isEmpty then
          [.wrote_input fns.1] ++
            (match c.base_file with
             | some b => [.merged_base b]
             | none => [])
        else []
      let ex : Effect :=
        match c.base_file with
        | some b => .executed b fns.2.1
        | none => .executed fns.1 fns.2.1
      let post : List Effect :=
        match c.base_file with
        | some b => [.merged_base b]
        | none => []
      if !c.outputs_from_xml.isEmpty then
        match read_outputs_file x2p c execute_doc outputs discrete_outputs with
        | (.raised e, _) =>
          (pre ++ [ex] ++ post ++ [.read_back fns.2.1], .raised e)
        | (.ok asg, _) =>
          (pre ++ [ex] ++ post ++ [.read_back fns.2.1], .ok asg)
      else (pre ++ [ex] ++ post, .ok [])

/-- Component for the `inputs={"a/b": 2.0}`, `outputs={"a/b": 5.0}`
scenario. -/
def c_ab : XMLComponent :=
  ⟨[("a/b", .scalar 2)], [("a/b", .scalar 5)], [], "", false, none, "comp",
   none, none, none, none⟩

/-- Component for the `inputs={"x": 0.0}`, `outputs={"x": 3.0}` scenario. -/
def c_x0 : XMLComponent :=
  ⟨[("x", .scalar 0)], [("x", .scalar 3)], [], "", false, none, "comp",
   none, none, none, none⟩

/-- Component used in the cache-invalidation scenario: one colliding
continuous name, no property computed yet. -/
def c_cache : XMLComponent :=
  ⟨[("a", .scalar 1)], [("a", .scalar 2)], [], "", false, none, "comp",
   none, none, none, none⟩

/-- A component with `keep_files=True` for the file-name scenario. -/
def c_keep : XMLComponent :=
  ⟨[("p", .scalar 1)], [("q", .scalar 2)], [], "", true, none, "comp",
   none, none, none, none⟩

/-- A component whose instance lacks the `discipline` attribute (as every
instance does unless a subclass adds one) with a nonempty registry. -/
def c_nodisc : XMLComponent :=
  ⟨[("p", .scalar 1)], [("q", .scalar 2)], [], "", false, none, "comp",
   none, none, none, none⟩

/-!
Helper lemmas about the collision resolver, followed by one theorem (and,
where applicable, a witness or counterexample) per verified property.
-/

/-- A continuous output colliding with a discrete input makes the
`output_rename_map` loop raise the (cont)/(discrete) `RuntimeError`. -/
theorem orm_aux_raises (inN dN : List String) :
    ∀ outs : List (String × Value),
      (∃ p ∈ outs, is_float p.2 = true ∧ p.1 ∈ dN) →
      ∃ n, output_rename_map_aux inN dN outs =
        .raised ("Output not same type (cont) as input (discrete): " ++ n) := by
  intro outs
  induction outs with
  | nil => rintro ⟨p, hp, -⟩; simp at hp
  | cons hd tl ih =>
    rintro ⟨p, hp, hpf, hpd⟩
    obtain ⟨n, v⟩ := hd
    rcases List.mem_cons.mp hp with rfl | hmem
    · have hpf' : is_float v = true := hpf
      have hpd' : n ∈ dN := hpd
      refine ⟨n, ?_⟩
      simp only [output_rename_map_aux]
      rw [if_pos hpf', if_pos hpd']
    · obtain ⟨m, hm⟩ := ih ⟨p, hmem, hpf, hpd⟩
      by_cases h1 : is_float v = true
      · by_cases h2 : n ∈ dN
        · exact ⟨n, by simp only [output_rename_map_aux]; rw [if_pos h1, if_pos h2]⟩
        · by_cases h3 : n ∈ inN
          · refine ⟨m, ?_⟩
            simp only [output_rename_map_aux]
            rw [if_pos h1, if_neg h2, if_pos h3, hm]
          · refine ⟨m, ?_⟩
            simp only [output_rename_map_aux]
            rw [if_pos h1, if_neg h2, if_neg h3]
            exact hm
      · exact ⟨m, by simp only [output_rename_map_aux]; rw [if_neg h1]; exact hm⟩

/-- A discrete output colliding with a continuous input makes the
`discrete_output_rename_map` loop raise the (discrete)/(cont)
`RuntimeError`. -/
theorem dorm_aux_raises (inN dN : List String) :
    ∀ outs : List (String × Value),
      (∃ p ∈ outs, is_float p.2 = false ∧ p.1 ∈ inN) →
      ∃ n, discrete_output_rename_map_aux inN dN outs =
        .raised ("Output not same type (discrete) as input (cont): " ++ n) := by
  intro outs
  induction outs with
  | nil => rintro ⟨p, hp, -⟩; simp at hp
  | cons hd tl ih =>
    rintro ⟨p, hp, hpf, hpi⟩
    obtain ⟨n, v⟩ := hd
    rcases List.mem_cons.mp hp with rfl | hmem
    · have hpf' : is_float v = false := hpf
      have hpi' : n ∈ inN := hpi
      refine ⟨n, ?_⟩
      simp only [discrete_output_rename_map_aux]
      rw [if_neg (by simp [hpf']), if_pos hpi']
    · obtain ⟨m, hm⟩ := ih ⟨p, hmem, hpf, hpi⟩
      by_cases h1 : is_float v = true
      · exact ⟨m, by simp only [discrete_output_rename_map_aux]; rw [if_pos h1]; exact hm⟩
      · by_cases h2 : n ∈ inN
        · exact ⟨n, by simp only [discrete_output_rename_map_aux]; rw [if_neg h1, if_pos h2]⟩
        · by_cases h3 : n ∈ dN
          · refine ⟨m, ?_⟩
            simp only [discrete_output_rename_map_aux]
            rw [if_neg h1, if_neg h2, if_pos h3, hm]
          · refine ⟨m, ?_⟩
            simp only [discrete_output_rename_map_aux]
            rw [if_neg h1, if_neg h2, if_neg h3]
            exact hm

/-- An output name that is in neither input-name set is never renamed and
never raises. -/
theorem orm_aux_no_collision (inN dN : List String) :
    ∀ outs : List (String × Value),
      (∀ p ∈ outs, p.1 ∉ inN ∧ p.1 ∉ dN) →
      output_rename_map_aux inN dN outs = .ok [] := by
  intro outs
  induction outs with
  | nil => intro _; rfl
  | cons hd tl ih =>
    intro h
    obtain ⟨n, v⟩ := hd
    obtain ⟨hn1, hn2⟩ := h (n, v) (List.mem_cons_self _ _)
    have hrest := fun p hp => h p (List.mem_cons_of_mem _ hp)
    by_cases h1 : is_float v = true
    · simp only [output_rename_map_aux]
      rw [if_pos h1, if_neg hn2, if_neg hn1]
      exact ih hrest
    · simp only [output_rename_map_aux]
      rw [if_neg h1]
      exact ih hrest

/-- Discrete analogue of `orm_aux_no_collision`. -/
theorem dorm_aux_no_collision (inN dN : List String) :
    ∀ outs : List (String × Value),
      (∀ p ∈ outs, p.1 ∉ inN ∧ p.1 ∉ dN) →
      discrete_output_rename_map_aux inN dN outs = .ok [] := by
  intro outs
  induction outs with
  | nil => intro _; rfl
  | cons hd tl ih =>
    intro h
    obtain ⟨n, v⟩ := hd
    obtain ⟨hn1, hn2⟩ := h (n, v) (List.mem_cons_self _ _)
    have hrest := fun p hp => h p (List.mem_cons_of_mem _ hp)
    by_cases h1 : is_float v = true
    · simp only [discrete_output_rename_map_aux]
      rw [if_pos h1]
      exact ih hrest
    · simp only [discrete_output_rename_map_aux]
      rw [if_neg h1, if_neg hn1, if_neg hn2]
      exact ih hrest

/-- Every continuous input name is an input-registry key. -/
theorem mem_input_names_keys {ins : List (String × Value)} {n : String}
    (h : n ∈ input_names ins) : n ∈ ins.map Prod.fst := by
  rcases List.mem_map.mp h with ⟨q, hq, rfl⟩
  exact List.mem_map_of_mem _ (List.mem_of_mem_filter hq)

/-- Every discrete input name is an input-registry key. -/
theorem mem_discrete_input_names_keys {ins : List (String × Value)} {n : String}
    (h : n ∈ discrete_input_names ins) : n ∈ ins.map Prod.fst := by
  rcases List.mem_map.mp h with ⟨q, hq, rfl⟩
  exact List.mem_map_of_mem _ (List.mem_of_mem_filter hq)

/-- C1: the claim expects the rename entry and the declared output slot for
the `inputs={"a/b": 2.0}`, `outputs={"a/b": 5.0}` collision to carry the
normalization reference `2.0` taken from the input's template value.  The
code computes the reference from the *output's* template value (despite its
own comment "Use the value stored in the input.xml as a reference value"):
the rename map is `{"a/b": ("a/b___out", 5.0, 5.0)}` and `setup` declares
`a/b___out` with `ref=5.0`, not `2.0`. -/
theorem rename_ref_from_output_value :
    computeOutputRenameMap [("a/b", Value.scalar 2)] [("a/b", Value.scalar 5)] =
      .ok [("a/b", ("a/b___out", Value.scalar 5, 5))] ∧
    computeOutputRenameMap [("a/b", Value.scalar 2)] [("a/b", Value.scalar 5)] ≠
      .ok [("a/b", ("a/b___out", Value.scalar 5, 2))] ∧
    (setup id c_ab).1 =
      .ok ⟨[("a/b", Value.scalar 2)], [], [("a/b___out", Value.scalar 5, 5)],
           [], [], true⟩ := by
  refine ⟨by decide, by decide, by decide⟩

/-- C2: a type-mismatched collision (continuous output vs. discrete input,
or discrete output vs. continuous input) makes collision resolution raise
the corresponding `RuntimeError`; the outcome is invariant under any
reordering (permutation) of the registered input and output entries. -/
theorem type_mismatch_collision_fatal (ins outs ins2 outs2 : List (String × Value))
    (hi : ins.Perm ins2) (ho : outs.Perm outs2) :
    ((∃ p ∈ outs, is_float p.2 = true ∧ p.1 ∈ discrete_input_names ins) →
      (∃ n, computeOutputRenameMap ins outs =
        .raised ("Output not same type (cont) as input (discrete): " ++ n)) ∧
      (∃ n, computeOutputRenameMap ins2 outs2 =
        .raised ("Output not same type (cont) as input (discrete): " ++ n))) ∧
    ((∃ p ∈ outs, is_float p.2 = false ∧ p.1 ∈ input_names ins) →
      (∃ n, computeDiscreteOutputRenameMap ins outs =
        .raised ("Output not same type (discrete) as input (cont): " ++ n)) ∧
      (∃ n, computeDiscreteOutputRenameMap ins2 outs2 =
        .raised ("Output not same type (discrete) as input (cont): " ++ n))) := by
  have hdn : ∀ n : String, n ∈ discrete_input_names ins ↔ n ∈ discrete_input_names ins2 :=
    fun n => ((hi.filter _).map Prod.fst).mem_iff
  have hin : ∀ n : String, n ∈ input_names ins ↔ n ∈ input_names ins2 :=
    fun n => ((hi.filter _).map Prod.fst).mem_iff
  constructor
  · rintro ⟨p, hp, hf, hd⟩
    refine ⟨orm_aux_raises _ _ _ ⟨p, hp, hf, hd⟩, orm_aux_raises _ _ _ ?_⟩
    exact ⟨p, ho.mem_iff.mp hp, hf, (hdn p.1).mp hd⟩
  · rintro ⟨p, hp, hf, hd⟩
    refine ⟨dorm_aux_raises _ _ _ ⟨p, hp, hf, hd⟩, dorm_aux_raises _ _ _ ?_⟩
    exact ⟨p, ho.mem_iff.mp hp, hf, (hin p.1).mp hd⟩

/-- Witness for C2: a registry with one mismatch of each direction raises
both errors, under the original and a swapped registration order. -/
theorem type_mismatch_collision_fatal_witness :
    ((∃ n, computeOutputRenameMap [("n", Value.str "d"), ("m", Value.scalar 1)]
        [("n", Value.scalar 1), ("m", Value.str "x")] =
        .raised ("Output not same type (cont) as input (discrete): " ++ n)) ∧
     (∃ n, computeOutputRenameMap [("m", Value.scalar 1), ("n", Value.str "d")]
        [("m", Value.str "x"), ("n", Value.scalar 1)] =
        .raised ("Output not same type (cont) as input (discrete): " ++ n))) ∧
    ((∃ n, computeDiscreteOutputRenameMap [("n", Value.str "d"), ("m", Value.scalar 1)]
        [("n", Value.scalar 1), ("m", Value.str "x")] =
        .raised ("Output not same type (discrete) as input (cont): " ++ n)) ∧
     (∃ n, computeDiscreteOutputRenameMap [("m", Value.scalar 1), ("n", Value.str "d")]
        [("m", Value.str "x"), ("n", Value.scalar 1)] =
        .raised ("Output not same type (discrete) as input (cont): " ++ n))) := by
  have h := type_mismatch_collision_fatal
    [("n", Value.str "d"), ("m", Value.scalar 1)]
    [("n", Value.scalar 1), ("m", Value.str "x")]
    [("m", Value.scalar 1), ("n", Value.str "d")]
    [("m", Value.str "x"), ("n", Value.scalar 1)]
    (List.Perm.swap _ _ _) (List.Perm.swap _ _ _)
  exact ⟨h.1 (by decide), h.2 (by decide)⟩

/-- C3: when the host-framework write of one `(output, input)` sensitivity
pair raises, `read_partials_file` catches it, logs the message, and
continues with the remaining pairs; moreover the whole call returns
normally whenever reading the rename-map property does. -/
theorem partial_write_failure_caught {σ : Type}
    (xp : String → String) (orm : List (String × String × Value × ℚ))
    (declared : List (String × String))
    (trySet : σ → String → String → ℚ → PyResult σ)
    (ofv wrt : String) (val : ℚ) (rest : List (String × ℚ))
    (st : σ) (log : List String) (msg : String)
    (hdecl : (orm_renamed orm (xp ofv), xp wrt) ∈ declared)
    (hfail : trySet st (orm_renamed orm (xp ofv)) (xp wrt) val = .raised msg) :
    read_partials_inner xp orm declared trySet ofv ((wrt, val) :: rest) st log =
      read_partials_inner xp orm declared trySet (orm_renamed orm (xp ofv)) rest st
        (log ++ [msg]) ∧
    ∀ (c : XMLComponent) (entries : List (String × List (String × ℚ))) (st0 : σ),
      (get_output_rename_map c).1 = .ok orm →
      ∃ r, (read_partials_file xp trySet c declared entries st0).1 = .ok r := by
  constructor
  · simp only [read_partials_inner]
    rw [if_pos hdecl, hfail]
  · intro c entries st0 horm
    rcases hg : get_output_rename_map c with ⟨r1, c1⟩
    rw [hg] at horm
    simp only at horm
    subst horm
    simp only [read_partials_file, hg]
    exact ⟨_, rfl⟩

/-- Witness for C3: a write that always raises `"boom"` on a declared pair
is logged and skipped, and the surrounding evaluation still returns. -/
theorem partial_write_failure_caught_witness :
    read_partials_inner (σ := List String) id [] [("f", "x")]
        (fun _ _ _ _ => .raised "boom") "f" [("x", 1)] [] [] =
      read_partials_inner id [] [("f", "x")] (fun _ _ _ _ => .raised "boom")
        "f" [] [] ["boom"] ∧
    ∃ r, (read_partials_file (σ := List String) id (fun _ _ _ _ => .raised "boom")
        c_nodisc [("f", "x")] [("f", [("x", 1)])] []).1 = .ok r := by
  have h := partial_write_failure_caught (σ := List String) id [] [("f", "x")]
    (fun _ _ _ _ => .raised "boom") "f" "x" 1 [] [] [] "boom" (by decide) rfl
  exact ⟨h.1, h.2 c_nodisc [("f", [("x", 1)])] [] (by decide)⟩

/-- Reading `output_rename_map` without raising leaves the computed map in
the memoization slot. -/
theorem get_orm_ok_caches (c : XMLComponent) (m : List (String × String × Value × ℚ))
    (h : (get_output_rename_map c).1 = .ok m) :
    (get_output_rename_map c).2.cache_output_rename_map = some m := by
  obtain ⟨i, o, pf, df, kf, bf, nm, dc, ci, co, cd⟩ := c
  cases co with
  | some m0 =>
    simp [get_output_rename_map] at h ⊢
    exact h
  | none =>
    cases ci with
    | some v =>
      obtain ⟨vin, vdn⟩ := v
      cases haux : output_rename_map_aux vin vdn o with
      | ok m0 =>
        simp [get_output_rename_map, get_input_names, haux] at h ⊢
        exact h
      | raised e =>
        simp [get_output_rename_map, get_input_names, haux] at h
    | none =>
      cases haux : output_rename_map_aux (input_names i) (discrete_input_names i) o with
      | ok m0 =>
        simp [get_output_rename_map, get_input_names, haux] at h ⊢
        exact h
      | raised e =>
        simp [get_output_rename_map, get_input_names, haux] at h

/-- Reading `discrete_output_rename_map` without raising leaves the
computed map in the memoization slot. -/
theorem get_dorm_ok_caches (c : XMLComponent) (m : List (String × String × Value))
    (h : (get_discrete_output_rename_map c).1 = .ok m) :
    (get_discrete_output_rename_map c).2.cache_discrete_output_rename_map = some m := by
  obtain ⟨i, o, pf, df, kf, bf, nm, dc, ci, co, cd⟩ := c
  cases cd with
  | some m0 =>
    simp [get_discrete_output_rename_map] at h ⊢
    exact h
  | none =>
    cases ci with
    | some v =>
      obtain ⟨vin, vdn⟩ := v
      cases haux : discrete_output_rename_map_aux vin vdn o with
      | ok m0 =>
        simp [get_discrete_output_rename_map, get_input_names, haux] at h ⊢
        exact h
      | raised e =>
        simp [get_discrete_output_rename_map, get_input_names, haux] at h
    | none =>
      cases haux : discrete_output_rename_map_aux (input_names i) (discrete_input_names i) o with
      | ok m0 =>
        simp [get_discrete_output_rename_map, get_input_names, haux] at h ⊢
        exact h
      | raised e =>
        simp [get_discrete_output_rename_map, get_input_names, haux] at h

/-- A filled memoization slot is returned as-is, with the state
unchanged. -/
theorem get_orm_of_cached (c : XMLComponent) (m : List (String × String × Value × ℚ))
    (h : c.cache_output_rename_map = some m) :
    get_output_rename_map c = (.ok m, c) := by
  unfold get_output_rename_map
  rw [h]

/-- Discrete analogue of `get_orm_of_cached`. -/
theorem get_dorm_of_cached (c : XMLComponent) (m : List (String × String × Value))
    (h : c.cache_discrete_output_rename_map = some m) :
    get_discrete_output_rename_map c = (.ok m, c) := by
  unfold get_discrete_output_rename_map
  rw [h]

/-- C4 counterexample: on `inputs={"a": 1.0}`, `outputs={"a": 2.0}`,
compute the rename map, then call `set_inputs_from_xml` with an empty
registry.  The next access still returns the stale one-entry map, although
recomputing from the now-current registry contents yields the empty map —
the setters do not cause the next access to reflect the new registry. -/
theorem setter_does_not_refresh_rename_map :
    (get_output_rename_map (set_inputs_from_xml (get_output_rename_map c_cache).2 [])).1 =
      .ok [("a", ("a___out", Value.scalar 2, 2))] ∧
    computeOutputRenameMap
        (set_inputs_from_xml (get_output_rename_map c_cache).2 []).inputs_from_xml
        (set_inputs_from_xml (get_output_rename_map c_cache).2 []).outputs_from_xml =
      .ok [] ∧
    (get_output_rename_map (set_inputs_from_xml (get_output_rename_map c_cache).2 [])).1 ≠
      .ok [] := by
  refine ⟨by decide, by decide, by decide⟩

/-- C4 (amended): once a rename map has been computed successfully, calling
`set_inputs_from_xml` and `set_outputs_from_xml` does not invalidate the
memoized value — every later access returns the previously cached map,
whatever the new registry contents are. -/
theorem rename_maps_not_invalidated (c : XMLComponent)
    (xs ys : List (String × Value)) :
    (∀ m, (get_output_rename_map c).1 = .ok m →
      (get_output_rename_map (set_outputs_from_xml (set_inputs_from_xml
        (get_output_rename_map c).2 xs) ys)).1 = .ok m) ∧
    (∀ m, (get_discrete_output_rename_map c).1 = .ok m →
      (get_discrete_output_rename_map (set_outputs_from_xml (set_inputs_from_xml
        (get_discrete_output_rename_map c).2 xs) ys)).1 = .ok m) := by
  constructor
  · intro m h
    have hc := get_orm_ok_caches c m h
    have hset : (set_outputs_from_xml (set_inputs_from_xml
        (get_output_rename_map c).2 xs) ys).cache_output_rename_map =
        (get_output_rename_map c).2.cache_output_rename_map := rfl
    rw [get_orm_of_cached _ m (hset.trans hc)]
  · intro m h
    have hc := get_dorm_ok_caches c m h
    have hset : (set_outputs_from_xml (set_inputs_from_xml
        (get_discrete_output_rename_map c).2 xs) ys).cache_discrete_output_rename_map =
        (get_discrete_output_rename_map c).2.cache_discrete_output_rename_map := rfl
    rw [get_dorm_of_cached _ m (hset.trans hc)]

/-- Witness for the amended C4: the concrete stale read. -/
theorem rename_maps_not_invalidated_witness :
    (get_output_rename_map (set_outputs_from_xml (set_inputs_from_xml
      (get_output_rename_map c_cache).2 []) [])).1 =
      .ok [("a", ("a___out", Value.scalar 2, 2))] :=
  (rename_maps_not_invalidated c_cache [] []).1 _ (by decide)

/-- C5: the claim expects the `inputs={"x": 0.0}`, `outputs={"x": 3.0}`
collision to store normalization reference `1` (zero-substitution of the
input's `0.0`).  The code never reads the input's value: the reference
comes from the output's value `3.0`, so the entry is
`("x___out", 3.0, 3.0)` — neither `1` nor `0` — both in the rename map and
in the `setup` declaration. -/
theorem zero_input_not_substituted :
    computeOutputRenameMap [("x", Value.scalar 0)] [("x", Value.scalar 3)] =
      .ok [("x", ("x___out", Value.scalar 3, 3))] ∧
    computeOutputRenameMap [("x", Value.scalar 0)] [("x", Value.scalar 3)] ≠
      .ok [("x", ("x___out", Value.scalar 3, 1))] ∧
    (setup id c_x0).1 =
      .ok ⟨[("x", Value.scalar 0)], [], [("x___out", Value.scalar 3, 3)],
           [], [], true⟩ := by
  refine ⟨by decide, by decide, by decide⟩

/-- C6: two invocations of `generate_file_names` at distinct instants that
differ only in the second field produce identical input, output and
partials file names, because the salt format `'%Y%m%d%H%M%f'` renders no
seconds — refuting uniqueness across distinct times for a `keep_files=True`
component. -/
theorem file_names_collide_across_seconds :
    (⟨2026, 10, 12, 10, 30, 15, 123456⟩ : DateTime) ≠
      ⟨2026, 10, 12, 10, 30, 47, 123456⟩ ∧
    strftime_YmdHMf ⟨2026, 10, 12, 10, 30, 15, 123456⟩ =
      strftime_YmdHMf ⟨2026, 10, 12, 10, 30, 47, 123456⟩ ∧
    generate_file_names c_keep ⟨2026, 10, 12, 10, 30, 15, 123456⟩ =
      generate_file_names c_keep ⟨2026, 10, 12, 10, 30, 47, 123456⟩ ∧
    c_keep.keep_files = true := by
  refine ⟨by decide, by decide, by decide, by decide⟩

/-- C7: when no name occurs in both the input and the output registry, both
rename maps are computed without raising and are empty. -/
theorem no_overlap_rename_maps_empty (ins outs : List (String × Value))
    (h : ∀ n ∈ ins.map Prod.fst, n ∉ outs.map Prod.fst) :
    computeOutputRenameMap ins outs = .ok [] ∧
    computeDiscreteOutputRenameMap ins outs = .ok [] := by
  have hkeys : ∀ p ∈ outs, p.1 ∉ input_names ins ∧ p.1 ∉ discrete_input_names ins := by
    intro p hp
    have hout : p.1 ∈ outs.map Prod.fst := List.mem_map_of_mem _ hp
    constructor
    · intro hin
      exact h p.1 (mem_input_names_keys hin) hout
    · intro hin
      exact h p.1 (mem_discrete_input_names_keys hin) hout
  exact ⟨orm_aux_no_collision _ _ _ hkeys, dorm_aux_no_collision _ _ _ hkeys⟩

/-- Witness for C7: disjoint mixed-kind registries give empty maps. -/
theorem no_overlap_rename_maps_empty_witness :
    computeOutputRenameMap [("a", Value.scalar 1), ("d", Value.str "s")]
        [("b", Value.scalar 2), ("e", Value.str "t")] = .ok [] ∧
    computeDiscreteOutputRenameMap [("a", Value.scalar 1), ("d", Value.str "s")]
        [("b", Value.scalar 2), ("e", Value.str "t")] = .ok [] :=
  no_overlap_rename_maps_empty _ _ (by decide)

/-- Reading `output_rename_map` twice in a row yields the same result. -/
theorem get_orm_idem (c : XMLComponent) :
    (get_output_rename_map (get_output_rename_map c).2).1 =
      (get_output_rename_map c).1 := by
  obtain ⟨i, o, pf, df, kf, bf, nm, dc, ci, co, cd⟩ := c
  cases co with
  | some m => simp [get_output_rename_map]
  | none =>
    cases ci with
    | some v =>
      obtain ⟨vin, vdn⟩ := v
      cases haux : output_rename_map_aux vin vdn o with
      | ok m => simp [get_output_rename_map, get_input_names, haux]
      | raised e => simp [get_output_rename_map, get_input_names, haux]
    | none =>
      cases haux : output_rename_map_aux (input_names i) (discrete_input_names i) o with
      | ok m => simp [get_output_rename_map, get_input_names, haux]
      | raised e => simp [get_output_rename_map, get_input_names, haux]

/-- Reading `discrete_output_rename_map` twice in a row yields the same
result. -/
theorem get_dorm_idem (c : XMLComponent) :
    (get_discrete_output_rename_map (get_discrete_output_rename_map c).2).1 =
      (get_discrete_output_rename_map c).1 := by
  obtain ⟨i, o, pf, df, kf, bf, nm, dc, ci, co, cd⟩ := c
  cases cd with
  | some m => simp [get_discrete_output_rename_map]
  | none =>
    cases ci with
    | some v =>
      obtain ⟨vin, vdn⟩ := v
      cases haux : discrete_output_rename_map_aux vin vdn o with
      | ok m => simp [get_discrete_output_rename_map, get_input_names, haux]
      | raised e => simp [get_discrete_output_rename_map, get_input_names, haux]
    | none =>
      cases haux : discrete_output_rename_map_aux (input_names i) (discrete_input_names i) o with
      | ok m => simp [get_discrete_output_rename_map, get_input_names, haux]
      | raised e => simp [get_discrete_output_rename_map, get_input_names, haux]

/-- Reading `output_rename_map` never modifies the registries. -/
theorem get_orm_fields (c : XMLComponent) :
    (get_output_rename_map c).2.inputs_from_xml = c.inputs_from_xml ∧
    (get_output_rename_map c).2.outputs_from_xml = c.outputs_from_xml := by
  obtain ⟨i, o, pf, df, kf, bf, nm, dc, ci, co, cd⟩ := c
  cases co with
  | some m => simp [get_output_rename_map]
  | none =>
    cases ci with
    | some v =>
      obtain ⟨vin, vdn⟩ := v
      cases haux : output_rename_map_aux vin vdn o with
      | ok m => simp [get_output_rename_map, get_input_names, haux]
      | raised e => simp [get_output_rename_map, get_input_names, haux]
    | none =>
      cases haux : output_rename_map_aux (input_names i) (discrete_input_names i) o with
      | ok m => simp [get_output_rename_map, get_input_names, haux]
      | raised e => simp [get_output_rename_map, get_input_names, haux]

/-- Reading `discrete_output_rename_map` never modifies the registries. -/
theorem get_dorm_fields (c : XMLComponent) :
    (get_discrete_output_rename_map c).2.inputs_from_xml = c.inputs_from_xml ∧
    (get_discrete_output_rename_map c).2.outputs_from_xml = c.outputs_from_xml := by
  obtain ⟨i, o, pf, df, kf, bf, nm, dc, ci, co, cd⟩ := c
  cases cd with
  | some m => simp [get_discrete_output_rename_map]
  | none =>
    cases ci with
    | some v =>
      obtain ⟨vin, vdn⟩ := v
      cases haux : discrete_output_rename_map_aux vin vdn o with
      | ok m => simp [get_discrete_output_rename_map, get_input_names, haux]
      | raised e => simp [get_discrete_output_rename_map, get_input_names, haux]
    | none =>
      cases haux : discrete_output_rename_map_aux (input_names i) (discrete_input_names i) o with
      | ok m => simp [get_discrete_output_rename_map, get_input_names, haux]
      | raised e => simp [get_discrete_output_rename_map, get_input_names, haux]

/-- C8: collision resolution is idempotent and side-effect free — reading
each rename-map property twice without an intervening registry mutation
yields identical results, and the read leaves the input and output
registries untouched. -/
theorem collision_resolution_idempotent_pure (c : XMLComponent) :
    (get_output_rename_map (get_output_rename_map c).2).1 =
      (get_output_rename_map c).1 ∧
    (get_discrete_output_rename_map (get_discrete_output_rename_map c).2).1 =
      (get_discrete_output_rename_map c).1 ∧
    (get_output_rename_map c).2.inputs_from_xml = c.inputs_from_xml ∧
    (get_output_rename_map c).2.outputs_from_xml = c.outputs_from_xml ∧
    (get_discrete_output_rename_map c).2.inputs_from_xml = c.inputs_from_xml ∧
    (get_discrete_output_rename_map c).2.outputs_from_xml = c.outputs_from_xml :=
  ⟨get_orm_idem c, get_dorm_idem c, (get_orm_fields c).1, (get_orm_fields c).2,
   (get_dorm_fields c).1, (get_dorm_fields c).2⟩

/-- C9: when `aliases` is omitted and the param and value counts agree, the
length-validation condition itself raises the `TypeError` from `len(None)`
— no action is ever produced without an explicit alias list; and when
`aliases` is provided, the condition's value is independent of how many
aliases were given, so an alias-count mismatch goes undetected. -/
theorem indep_vars_aliases_validation (suffix_of : String → String)
    (c : XMLComponent) (params : List String) (values : List ℚ)
    (l : List String) :
    (params.length = values.length →
      xml_params_as_indep_vars suffix_of c params values none =
        .raised "TypeError: object of type 'NoneType' has no len()") ∧
    len_condition params values (some l) =
      .ok (decide (params.length ≠ values.length)) := by
  constructor
  · intro h
    unfold xml_params_as_indep_vars len_condition
    rw [if_neg (by simp [h])]
  · unfold len_condition
    by_cases h : params.length = values.length
    · rw [if_neg (by simp [h])]
      simp [h]
    · rw [if_pos h]
      simp [h]

/-- Witness for C9: one param, one value, no aliases raises the
`TypeError`; with two aliases for one param the validation passes. -/
theorem indep_vars_aliases_validation_witness :
    xml_params_as_indep_vars id c_ab ["p"] [1] none =
      .raised "TypeError: object of type 'NoneType' has no len()" ∧
    len_condition ["p"] [1] (some ["a", "b"]) = .ok false := by
  have h := indep_vars_aliases_validation id c_ab ["p"] [1] ["a", "b"]
  exact ⟨h.1 rfl, by simpa using h.2⟩

/-- C10: on an instance without a `discipline` attribute, `compute` raises
`AttributeError` at its very first statement — the fast-path capability
check — with an empty effect trace: no input file is written and `execute`
is never called. -/
theorem compute_requires_discipline (p2x x2p : String → String)
    (efi : List (String × Value) → List (String × Value))
    (edoc : List (String × Value)) (c : XMLComponent)
    (inputs dinputs : List (String × Value)) (outputs : List String)
    (doutputs : Option (List String)) (now : DateTime)
    (h : c.discipline = none) :
    compute p2x x2p efi edoc c inputs dinputs outputs doutputs now =
      ([], .raised "AttributeError: 'XMLComponent' object has no attribute 'discipline'") := by
  unfold compute
  rw [h]

/-- Witness for C10: a concrete component with registered inputs and
outputs but no `discipline` attribute. -/
theorem compute_requires_discipline_witness :
    compute id id id [] c_nodisc [("p", Value.scalar 1)] [] ["q"] none
        ⟨2026, 1, 1, 0, 0, 0, 0⟩ =
      ([], .raised "AttributeError: 'XMLComponent' object has no attribute 'discipline'") :=
  compute_requires_discipline id id id [] c_nodisc _ _ _ _ _ rfl

end OpenLego
